import Mathlib

/-!
Verification of the process-supervisor core of `tribler/gui/core_manager.py`
(the `CoreManager` class), shallowly embedded in Lean 4.

Modelling conventions:
* A Qt `QProcessEnvironment` is an association list of variable names to
  values (`Env`); `insert` replaces an existing variable of the same name.
* Python truthiness of the optional `core_args` list (`if not core_args`)
  is `pyTruthy`: `None` and an empty list are falsy.  The optional
  `core_env` is a `QProcessEnvironment`, for which PyQt5 defines neither
  `__bool__` nor `__len__`, so any environment object — even an empty
  one — is truthy and only `None` is falsy (`pyTruthyQEnv`).
* Signal handlers become pure state-transition functions.  Externally
  observable side effects (process spawns, calls to
  `app_manager.quit_application`, the raised `CoreCrashedError`, the
  dispatched shutdown network request) are returned alongside the new state.
* A raised Python exception is modelled by an `Option`/effect field holding
  the exception's message (`none` result = the handler raised).
* `bytes.decode("utf-8")` (strict, as written in the source) is modelled by
  an executable UTF-8 decoder returning `none` exactly when Python would
  raise `UnicodeDecodeError`.
-/

/-- A process environment: an association list of variable name to value
(models `QProcessEnvironment`). -/
abbrev Env := List (String × String)

/-- `QProcessEnvironment.insert`: inserts a variable, replacing any
existing variable of the same name. -/
def envInsert (n v : String) (e : Env) : Env :=
  (n, v) :: e.filter (fun p => p.1 != n)

/-- Python truthiness of the optional `core_args` list: `None` and an
empty list are falsy, a non-empty list is truthy. -/
def pyTruthy (o : Option (List α)) : Bool :=
  match o with
  | none => false
  | some l => !l.isEmpty

/-- Python truthiness of the optional `core_env` value (`None` or a
`QProcessEnvironment`): PyQt5 defines neither `__bool__` nor `__len__` for
`QProcessEnvironment`, so any environment object — even an empty one — is
truthy; only `None` is falsy. -/
def pyTruthyQEnv (o : Option Env) : Bool :=
  match o with
  | none => false
  | some _ => true

/-- Python `a or b` on strings: the empty string is falsy. -/
def pyOrStr (a b : String) : String :=
  if a = "" then b else a

/-- The mutable state of a `CoreManager` instance, together with the
observable state of its collaborators (events manager, app manager). -/
structure CoreManager where
  root_state_dir : String
  api_port : Nat
  api_key : String
  /-- `self.core_process`: `True` models a spawned `QProcess` handle,
  `False` models `None`. -/
  core_process : Bool
  /-- whether a (truthy) upgrade manager was supplied to `start`. -/
  upgrade_manager : Bool
  core_args : Option (List String)
  core_env : Option Env
  core_started : Bool
  core_running : Bool
  core_connected : Bool
  shutting_down : Bool
  core_finished : Bool
  should_quit_app_on_core_finished : Bool
  use_existing_core : Bool
  last_core_stdout_output : String
  last_core_stderr_output : String
  /-- `self.events_manager.shutting_down` (set by `stop`). -/
  events_manager_shutting_down : Bool
  /-- whether `self.events_manager.connect_timer` exists and `isActive()`. -/
  connect_timer_active : Bool
  /-- `self.app_manager.quitting_app`. -/
  app_manager_quitting : Bool
  /-- whether `upgrade_manager.upgrader_finished` has been connected to
  `start_tribler_core` (done inside `on_event_manager_initial_error`). -/
  upgrader_finished_connected : Bool
deriving DecidableEq

/-- The state of a fresh `CoreManager` right after `__init__` followed by
`start(core_args, core_env, upgrade_manager, run_core=True)`. -/
def CoreManager.mkStarted (root_state_dir : String) (api_port : Nat)
    (api_key : String) (core_args : Option (List String))
    (core_env : Option Env) (upgrade_manager : Bool) : CoreManager :=
  { root_state_dir := root_state_dir
    api_port := api_port
    api_key := api_key
    core_process := false
    upgrade_manager := upgrade_manager
    core_args := core_args
    core_env := core_env
    core_started := false
    core_running := false
    core_connected := false
    shutting_down := false
    core_finished := false
    should_quit_app_on_core_finished := false
    use_existing_core := true
    last_core_stdout_output := ""
    last_core_stderr_output := ""
    events_manager_shutting_down := false
    connect_timer_active := true
    app_manager_quitting := false
    upgrader_finished_connected := false }

/-- `on_core_connected`: handler for the events manager's
`core_connected` signal. -/
def CoreManager.on_core_connected (s : CoreManager) : CoreManager :=
  if !s.core_finished then { s with core_connected := true } else s

/-- `on_core_started`: handler for `QProcess.started`. -/
def CoreManager.on_core_started (s : CoreManager) : CoreManager :=
  { s with core_started := true, core_running := true }

/-- An observable process spawn: the program, argument list and
environment passed to `QProcess.start`. -/
structure Spawn where
  program : String
  args : List String
  env : Env
deriving DecidableEq

/-- `start_tribler_core`: resolves the worker environment and arguments and
spawns the core process.  `sys_executable`, `sys_argv` and
`system_environment` model the corresponding interpreter globals; the
returned list holds the spawns performed by this call (always exactly
one — the source has no guard against re-invocation). -/
def CoreManager.start_tribler_core (sys_executable : String)
    (sys_argv : List String) (system_environment : Env)
    (s : CoreManager) : CoreManager × List Spawn :=
  let s1 := { s with use_existing_core := false }
  let core_env : Env :=
    if pyTruthyQEnv s1.core_env then s1.core_env.getD []
    else
      envInsert "TSTATEDIR" s1.root_state_dir
        (envInsert "CORE_API_KEY" s1.api_key
          (envInsert "CORE_API_PORT" (toString s1.api_port) system_environment))
  let core_args : List String :=
    if pyTruthy s1.core_args then s1.core_args.getD []
    else sys_argv ++ ["--core"]
  ({ s1 with core_process := true },
   [{ program := sys_executable, args := core_args, env := core_env }])

/-- `on_event_manager_initial_error`: if an upgrade manager is configured,
connect its `upgrader_finished` signal to `start_tribler_core` and start
it; otherwise launch the core immediately. -/
def CoreManager.on_event_manager_initial_error (sys_executable : String)
    (sys_argv : List String) (system_environment : Env)
    (s : CoreManager) : CoreManager × List Spawn :=
  if s.upgrade_manager then
    ({ s with upgrader_finished_connected := true }, [])
  else
    s.start_tribler_core sys_executable sys_argv system_environment

/-- Delivery of the upgrade manager's `upgrader_finished` signal: it runs
`start_tribler_core` exactly when that slot has been connected. -/
def CoreManager.on_upgrader_finished (sys_executable : String)
    (sys_argv : List String) (system_environment : Env)
    (s : CoreManager) : CoreManager × List Spawn :=
  if s.upgrader_finished_connected then
    s.start_tribler_core sys_executable sys_argv system_environment
  else (s, [])

/-- `stop(quit_app_on_core_finished)`: returns the new state and whether an
asynchronous shutdown request was dispatched to the core by this call. -/
def CoreManager.stop (quit_app_on_core_finished : Bool)
    (s : CoreManager) : CoreManager × Bool :=
  let s1 :=
    if quit_app_on_core_finished then
      { s with should_quit_app_on_core_finished := true }
    else s
  if s1.shutting_down then (s1, false)
  else
    let s2 := { s1 with shutting_down := true }
    if s2.core_process || s2.core_connected then
      ({ s2 with events_manager_shutting_down := true }, true)
    else (s2, false)

/-- Model of the platform's `os.strerror` (external to the repository): a
textual description for known error numbers, `none` when the platform has
no description (Python then raises `ValueError`, which
`format_error_message` catches). -/
def os_strerror (n : Int) : Option String :=
  if n = 0 then some "Success"
  else if n = 1 then some "Operation not permitted"
  else if n = 2 then some "No such file or directory"
  else if n = 3 then some "No such process"
  else if n = 4 then some "Interrupted system call"
  else if n = 5 then some "Input/output error"
  else if n = 12 then some "Cannot allocate memory"
  else if n = 13 then some "Permission denied"
  else none

/-- `re.sub(r'^', '> ', s, flags=re.MULTILINE)` on the characters of the
last output: insert `"> "` after every newline (the position at the start
of the string is handled by `multiline_quote`). -/
def multilineQuoteAux : List Char → List Char
  | [] => []
  | c :: rest =>
    if c = '\n' then '\n' :: '>' :: ' ' :: multilineQuoteAux rest
    else c :: multilineQuoteAux rest

/-- `re.sub(r'^', '> ', s, flags=re.MULTILINE)`: prefix `"> "` at the start
of the string and after every newline. -/
def multiline_quote (s : String) : String :=
  "> " ++ String.mk (multilineQuoteAux s.data)

/-- `CoreManager.format_error_message`: the diagnostic built for an
unexpected core exit. -/
def format_error_message (exit_code exit_status : Int)
    (last_core_output : String) : String :=
  let message := "The Tribler core has unexpectedly finished with exit code "
    ++ toString exit_code ++ " and status: " ++ toString exit_status ++ "."
  let string_error :=
    match os_strerror exit_code with
    | some s => s
    | none => "unknown error number"
  let message := message ++ "\n\nError message: " ++ string_error
  let quoted_output := multiline_quote last_core_output
  message ++ "\n\nLast core output:\n" ++ quoted_output

/-- The observable effects of `on_core_finished`. -/
structure FinishEffects where
  /-- number of calls to `app_manager.quit_application()`. -/
  quit_application_calls : Nat
  /-- the message of the raised `CoreCrashedError`, when one is raised. -/
  raised_error : Option String
  /-- whether the events manager's connect timer was stopped. -/
  timer_stopped : Bool
deriving DecidableEq

/-- `on_core_finished(exit_code, exit_status)`: the `QProcess.finished`
handler. -/
def CoreManager.on_core_finished (exit_code exit_status : Int)
    (s : CoreManager) : CoreManager × FinishEffects :=
  let s1 := { s with core_running := false, core_finished := true }
  if s1.shutting_down then
    if s1.should_quit_app_on_core_finished then
      (s1, { quit_application_calls := 1, raised_error := none,
             timer_stopped := false })
    else
      (s1, { quit_application_calls := 0, raised_error := none,
             timer_stopped := false })
  else
    let output := pyOrStr s1.last_core_stderr_output s1.last_core_stdout_output
    let error_message := format_error_message exit_code exit_status output
    if !s1.app_manager_quitting && s1.connect_timer_active then
      ({ s1 with connect_timer_active := false },
       { quit_application_calls := 0, raised_error := some error_message,
         timer_stopped := true })
    else
      (s1, { quit_application_calls := 0, raised_error := some error_message,
             timer_stopped := false })

/-- Strict UTF-8 decoding of a byte sequence to a list of code points,
exactly as Python's `bytes.decode("utf-8")`: `none` models a raised
`UnicodeDecodeError` (continuation-byte errors, overlong forms, surrogate
code points and values above U+10FFFF are all rejected). -/
def utf8_decode : List Nat → Option (List Nat)
  | [] => some []
  | b :: rest =>
    if b ≤ 0x7F then
      (utf8_decode rest).map (fun cps => b :: cps)
    else if 0xC2 ≤ b ∧ b ≤ 0xDF then
      match rest with
      | b2 :: rest2 =>
        if 0x80 ≤ b2 ∧ b2 ≤ 0xBF then
          (utf8_decode rest2).map
            (fun cps => ((b - 0xC0) * 0x40 + (b2 - 0x80)) :: cps)
        else none
      | [] => none
    else if 0xE0 ≤ b ∧ b ≤ 0xEF then
      match rest with
      | b2 :: b3 :: rest3 =>
        if (if b = 0xE0 then 0xA0 else 0x80) ≤ b2
            ∧ b2 ≤ (if b = 0xED then 0x9F else 0xBF)
            ∧ 0x80 ≤ b3 ∧ b3 ≤ 0xBF then
          (utf8_decode rest3).map
            (fun cps =>
              ((b - 0xE0) * 0x1000 + (b2 - 0x80) * 0x40 + (b3 - 0x80)) :: cps)
        else none
      | _ => none
    else if 0xF0 ≤ b ∧ b ≤ 0xF4 then
      match rest with
      | b2 :: b3 :: b4 :: rest4 =>
        if (if b = 0xF0 then 0x90 else 0x80) ≤ b2
            ∧ b2 ≤ (if b = 0xF4 then 0x8F else 0xBF)
            ∧ 0x80 ≤ b3 ∧ b3 ≤ 0xBF ∧ 0x80 ≤ b4 ∧ b4 ≤ 0xBF then
          (utf8_decode rest4).map
            (fun cps =>
              ((b - 0xF0) * 0x40000 + (b2 - 0x80) * 0x1000
                + (b3 - 0x80) * 0x40 + (b4 - 0x80)) :: cps)
        else none
      | _ => none
    else none

/-- Python `str` whitespace (the characters stripped by `str.strip()`). -/
def isPySpace (c : Nat) : Bool :=
  (9 ≤ c && c ≤ 13) || (28 ≤ c && c ≤ 32) || c == 0x85 || c == 0xA0
    || c == 0x1680 || (0x2000 ≤ c && c ≤ 0x200A) || c == 0x2028
    || c == 0x2029 || c == 0x202F || c == 0x205F || c == 0x3000

/-- Python `str.strip()` on a list of code points. -/
def pyStrip (l : List Nat) : List Nat :=
  ((l.dropWhile isPySpace).reverse.dropWhile isPySpace).reverse

/-- `raw_output.decode("utf-8").strip()` as written in the source:
`none` models the raised `UnicodeDecodeError`. -/
def decode_strip (raw : List Nat) : Option String :=
  (utf8_decode raw).map
    (fun cps => String.mk ((pyStrip cps).map Char.ofNat))

/-- `on_core_stdout_read_ready`, with `raw` the bytes returned by
`readAllStandardOutput()`: `none` models an escaped exception. -/
def CoreManager.on_core_stdout_read_ready (raw : List Nat)
    (s : CoreManager) : Option CoreManager :=
  if s.app_manager_quitting then some s
  else
    match decode_strip raw with
    | none => none
    | some txt => some { s with last_core_stdout_output := txt }

/-- `on_core_stderr_read_ready`, with `raw` the bytes returned by
`readAllStandardError()`: `none` models an escaped exception. -/
def CoreManager.on_core_stderr_read_ready (raw : List Nat)
    (s : CoreManager) : Option CoreManager :=
  if s.app_manager_quitting then some s
  else
    match decode_strip raw with
    | none => none
    | some txt => some { s with last_core_stderr_output := txt }

/-- The asynchronous events driving the launch phase: the events manager's
initial connection error and the upgrade manager's completion signal. -/
inductive LaunchEv
  | initialError
  | upgraderFinished
deriving DecidableEq

/-- Delivery of one launch-phase event to the supervisor. -/
def stepLaunch (exe : String) (argv : List String) (senv : Env)
    (s : CoreManager) : LaunchEv → CoreManager × List Spawn
  | LaunchEv.initialError => s.on_event_manager_initial_error exe argv senv
  | LaunchEv.upgraderFinished => s.on_upgrader_finished exe argv senv

/-- Deliver a list of launch-phase events in order, collecting every
process spawn that occurs. -/
def runLaunch (exe : String) (argv : List String) (senv : Env)
    (s : CoreManager) : List LaunchEv → CoreManager × List Spawn
  | [] => (s, [])
  | e :: tr =>
    let r := stepLaunch exe argv senv s e
    let r2 := runLaunch exe argv senv r.1 tr
    (r2.1, r.2 ++ r2.2)

/-- Substring occurrence test on character lists. -/
def charsContain (pat : List Char) : List Char → Bool
  | [] => pat.isEmpty
  | c :: rest => pat.isPrefixOf (c :: rest) || charsContain pat rest

/-- `pat` occurs as a contiguous substring of `s`. -/
def str_contains (s pat : String) : Bool :=
  charsContain pat.data s.data

/-- A concrete supervisor state used to instantiate the theorems. -/
def sampleState : CoreManager :=
  CoreManager.mkStarted "/home/user/.Tribler" 8085 "secretKey" none none false

theorem charsContain_nil (l : List Char) : charsContain [] l = true := by
  induction l with
  | nil => rfl
  | cons c rest ih => simp [charsContain, List.isPrefixOf]

theorem charsContain_append (pat xs ys : List Char) :
    charsContain pat (xs ++ (pat ++ ys)) = true := by
  induction xs with
  | nil =>
    cases pat with
    | nil => simpa using charsContain_nil ys
    | cons p ps =>
      show charsContain (p :: ps) ((p :: ps) ++ ys) = true
      rw [List.cons_append]
      simp only [charsContain, Bool.or_eq_true]
      left
      rw [List.isPrefixOf_iff_prefix, ← List.cons_append]
      exact List.prefix_append (p :: ps) ys
  | cons x xs' ih =>
    rw [List.cons_append]
    simp [charsContain, ih]

theorem str_contains_of_split (a pat b : String) :
    str_contains (a ++ (pat ++ b)) pat = true := by
  unfold str_contains
  rw [String.data_append, String.data_append]
  exact charsContain_append pat.data a.data b.data

theorem lookup_filter_ne (k n : String) (e : Env) (h : k ≠ n) :
    (e.filter (fun p => p.1 != n)).lookup k = e.lookup k := by
  induction e with
  | nil => rfl
  | cons a rest ih =>
    obtain ⟨a1, a2⟩ := a
    by_cases ha : a1 = n
    · have hk : (k == a1) = false := by
        simp only [beq_eq_false_iff_ne, ne_eq]
        exact fun hkk => h (hkk.trans ha)
      have hf : ((a1, a2).1 != n) = false := by simp [ha]
      simp [List.filter_cons, hf, List.lookup, hk, ih]
    · have hf : ((a1, a2).1 != n) = true := by simp [ha]
      by_cases hk : k = a1
      · subst hk
        simp [List.filter_cons, hf, List.lookup]
      · have hk' : (k == a1) = false := by
          simp only [beq_eq_false_iff_ne, ne_eq]; exact hk
        simp [List.filter_cons, hf, List.lookup, hk', ih]

theorem lookup_envInsert_self (n v : String) (e : Env) :
    (envInsert n v e).lookup n = some v := by
  simp [envInsert, List.lookup]

theorem lookup_envInsert_ne (n v k : String) (e : Env) (h : k ≠ n) :
    (envInsert n v e).lookup k = e.lookup k := by
  have hk : (k == n) = false := by
    simp only [beq_eq_false_iff_ne, ne_eq]; exact h
  simp only [envInsert, List.lookup, hk]
  exact lookup_filter_ne k n e h

theorem str_contains_mid (a c d pat : String) :
    str_contains (a ++ pat ++ c ++ d) pat = true := by
  unfold str_contains
  simp only [String.data_append]
  have h := charsContain_append pat.data a.data (c.data ++ d.data)
  simpa [List.append_assoc] using h

/-- C7: `format_error_message` is a pure function of its three arguments and
`format_error_message 1 0 "boom"` contains the literal substrings
`"exit code 1 and status: 0"`, an error-number description line
(`"Error message: Operation not permitted"`), and `"> boom"` (each line of
the last output is prefixed with `"> "`). -/
theorem format_error_message_boom :
    str_contains (format_error_message 1 0 "boom")
        "exit code 1 and status: 0" = true
    ∧ str_contains (format_error_message 1 0 "boom")
        "Error message: Operation not permitted" = true
    ∧ str_contains (format_error_message 1 0 "boom") "> boom" = true := by
  refine ⟨by decide, by decide, by decide⟩

/-- C8: for every exit code with no platform error description
(`os_strerror` returns `none`, modelling the `ValueError` raised by
`os.strerror`), `format_error_message` still returns (the `ValueError` is
caught) and the diagnostic contains the literal placeholder
`"unknown error number"`. -/
theorem format_error_message_unknown_errno (ec es : Int) (out : String)
    (h : os_strerror ec = none) :
    str_contains (format_error_message ec es out) "unknown error number"
      = true := by
  simp only [format_error_message, h]
  exact str_contains_mid _ _ _ _

/-- Witness for C8 at exit code 99999, which has no description in the
platform table. -/
theorem format_error_message_unknown_errno_witness :
    os_strerror 99999 = none
    ∧ str_contains (format_error_message 99999 0 "boom")
        "unknown error number" = true :=
  ⟨by decide, format_error_message_unknown_errno 99999 0 "boom" (by decide)⟩

/-- C1: the source decodes the worker's buffered output with strict UTF-8
(`raw_output.decode("utf-8")`, no error handler), so a stray high-bit byte
`0xFF` makes both ready handlers raise `UnicodeDecodeError` (modelled by a
`none` result) instead of storing a best-effort string — the output
handlers are not decode-safe as the specification claims. -/
theorem read_ready_raises_on_invalid_byte :
    sampleState.on_core_stdout_read_ready [0xFF] = none
    ∧ sampleState.on_core_stderr_read_ready [0xFF] = none :=
  ⟨rfl, rfl⟩

/-- C2 counterexample: from a concrete freshly-started supervisor state,
invoking `start_tribler_core` twice spawns a worker process on each
invocation — the second invocation is not a no-op, so two worker
processes are spawned. -/
theorem start_tribler_core_not_idempotent :
    ((sampleState.start_tribler_core "python" ["tribler.py"] []).2.length = 1)
    ∧ (((sampleState.start_tribler_core "python" ["tribler.py"]
          []).1.start_tribler_core "python" ["tribler.py"] []).2.length = 1) :=
  ⟨rfl, rfl⟩

/-- C2 (amended): `start_tribler_core` carries no invoked-before guard —
every invocation, from any state, spawns exactly one new worker process,
marks `use_existing_core` false and installs a fresh process handle; spawn
uniqueness is not enforced by the launch entry point itself. -/
theorem start_tribler_core_always_spawns (exe : String) (argv : List String)
    (senv : Env) (s : CoreManager) :
    (s.start_tribler_core exe argv senv).2.length = 1
    ∧ (s.start_tribler_core exe argv senv).1.use_existing_core = false
    ∧ (s.start_tribler_core exe argv senv).1.core_process = true :=
  ⟨rfl, rfl, rfl⟩

/-- C3: `on_core_finished` always sets `running = false` and
`finished = true`; when it fires with `shuttingDown = true` and
`quitAppOnFinish = true`, `quit_application` is invoked exactly once and no
error is raised; when it fires with `shuttingDown = false`, a
`CoreCrashedError` carrying the diagnostic message is raised instead and
`quit_application` is not invoked by this path. -/
theorem on_core_finished_spec (s : CoreManager) (ec es : Int) :
    (s.on_core_finished ec es).1.core_running = false
    ∧ (s.on_core_finished ec es).1.core_finished = true
    ∧ (s.shutting_down = true → s.should_quit_app_on_core_finished = true →
        (s.on_core_finished ec es).2.quit_application_calls = 1
        ∧ (s.on_core_finished ec es).2.raised_error = none)
    ∧ (s.shutting_down = false →
        (s.on_core_finished ec es).2.quit_application_calls = 0
        ∧ (s.on_core_finished ec es).2.raised_error =
            some (format_error_message ec es
              (pyOrStr s.last_core_stderr_output s.last_core_stdout_output))) := by
  unfold CoreManager.on_core_finished
  by_cases h1 : s.shutting_down <;>
    by_cases h2 : s.should_quit_app_on_core_finished <;>
      by_cases h3 : s.app_manager_quitting <;>
        by_cases h4 : s.connect_timer_active <;>
          simp_all

/-- Witness for C3: a concrete graceful shutdown invokes `quit_application`
exactly once without raising, and a concrete crash raises a
`CoreCrashedError` without invoking `quit_application`. -/
theorem on_core_finished_spec_witness :
    ((({ sampleState with
          shutting_down := true
          should_quit_app_on_core_finished := true } : CoreManager).on_core_finished
        1 0).2.quit_application_calls = 1)
    ∧ ((sampleState.on_core_finished 1 0).2.quit_application_calls = 0) :=
  ⟨((on_core_finished_spec
      { sampleState with
        shutting_down := true
        should_quit_app_on_core_finished := true } 1 0).2.2.1 rfl rfl).1,
   ((on_core_finished_spec sampleState 1 0).2.2.2 rfl).1⟩

/-- C4: from any state where shutdown has not yet begun, calling `stop`
twice sets `shuttingDown` true exactly once (false before, true after the
first call, and the second call changes nothing except possibly latching
`quitAppOnFinish`) and dispatches the shutdown command at most once (the
second call never dispatches). -/
theorem stop_twice_spec (q1 q2 : Bool) (s : CoreManager)
    (h : s.shutting_down = false) :
    ((s.stop q1).1.shutting_down = true)
    ∧ (((s.stop q1).1.stop q2).1 =
        { (s.stop q1).1 with should_quit_app_on_core_finished :=
            (s.stop q1).1.should_quit_app_on_core_finished || q2 })
    ∧ (((s.stop q1).1.stop q2).2 = false) := by
  unfold CoreManager.stop
  by_cases hq1 : q1 <;> by_cases hq2 : q2 <;>
    by_cases hc : s.core_process || s.core_connected <;>
      simp_all

/-- Witness for C4 at a concrete state with a spawned worker. -/
theorem stop_twice_spec_witness :
    ((({ sampleState with core_process := true } : CoreManager).stop
        true).1.shutting_down = true)
    ∧ (((({ sampleState with core_process := true } : CoreManager).stop
        true).1.stop true).2 = false) :=
  ⟨(stop_twice_spec true true { sampleState with core_process := true } rfl).1,
   (stop_twice_spec true true { sampleState with core_process := true } rfl).2.2⟩

/-- C6: `core_connected` can only become true while `core_finished` is
false — a `core_connected` signal arriving after `core_finished = true`
leaves the whole state (in particular `core_connected`) unchanged. -/
theorem on_core_connected_race_guard (s : CoreManager) :
    (s.core_finished = true → s.on_core_connected = s)
    ∧ (s.core_finished = false → s.on_core_connected.core_connected = true)
    ∧ (s.on_core_connected.core_connected = true →
        s.core_finished = false ∨ s.core_connected = true) := by
  unfold CoreManager.on_core_connected
  by_cases h : s.core_finished <;> simp_all

/-- Witness for C6: a late connection signal on a concrete finished state
is ignored, and on a concrete unfinished state it sets `core_connected`. -/
theorem on_core_connected_race_guard_witness :
    (({ sampleState with core_finished := true } : CoreManager).on_core_connected
        = { sampleState with core_finished := true })
    ∧ (sampleState.on_core_connected.core_connected = true) :=
  ⟨(on_core_connected_race_guard
      { sampleState with core_finished := true }).1 rfl,
   (on_core_connected_race_guard sampleState).2.1 rfl⟩

/-- C9: when no caller-supplied environment or arguments are present,
`start_tribler_core` spawns exactly one process whose environment is the
inherited system environment plus exactly the three entries
`CORE_API_PORT` (string form of the port), `CORE_API_KEY` and `TSTATEDIR`
(every other variable is looked up unchanged), and whose arguments are the
current invocation arguments plus the `--core` worker-mode flag. -/
theorem start_tribler_core_defaults (exe : String) (argv : List String)
    (senv : Env) (s : CoreManager)
    (henv : pyTruthyQEnv s.core_env = false)
    (hargs : pyTruthy s.core_args = false) :
    (s.start_tribler_core exe argv senv).2.map Spawn.program = [exe]
    ∧ (s.start_tribler_core exe argv senv).2.map Spawn.args
        = [argv ++ ["--core"]]
    ∧ (s.start_tribler_core exe argv senv).2.map
        (fun sp => sp.env.lookup "CORE_API_PORT")
        = [some (toString s.api_port)]
    ∧ (s.start_tribler_core exe argv senv).2.map
        (fun sp => sp.env.lookup "CORE_API_KEY") = [some s.api_key]
    ∧ (s.start_tribler_core exe argv senv).2.map
        (fun sp => sp.env.lookup "TSTATEDIR") = [some s.root_state_dir]
    ∧ ∀ k, k ≠ "CORE_API_PORT" → k ≠ "CORE_API_KEY" → k ≠ "TSTATEDIR" →
        (s.start_tribler_core exe argv senv).2.map
          (fun sp => sp.env.lookup k) = [senv.lookup k] := by
  simp only [CoreManager.start_tribler_core, henv, hargs, if_false,
    Bool.false_eq_true, List.map]
  refine ⟨by trivial, by trivial, ?_, ?_, ?_, ?_⟩
  · rw [lookup_envInsert_ne _ _ _ _ (by decide),
      lookup_envInsert_ne _ _ _ _ (by decide), lookup_envInsert_self]
  · rw [lookup_envInsert_ne _ _ _ _ (by decide), lookup_envInsert_self]
  · rw [lookup_envInsert_self]
  · intro k h1 h2 h3
    rw [lookup_envInsert_ne _ _ _ _ h3, lookup_envInsert_ne _ _ _ _ h2,
      lookup_envInsert_ne _ _ _ _ h1]

/-- Witness for C9 at a concrete state with no caller-supplied
environment or arguments. -/
theorem start_tribler_core_defaults_witness :
    (sampleState.start_tribler_core "python" ["tribler.py"] []).2.map
        Spawn.args = [["tribler.py", "--core"]]
    ∧ (sampleState.start_tribler_core "python" ["tribler.py"] []).2.map
        (fun sp => sp.env.lookup "CORE_API_PORT") = [some "8085"] :=
  ⟨(start_tribler_core_defaults "python" ["tribler.py"] [] sampleState
      rfl rfl).2.1,
   (start_tribler_core_defaults "python" ["tribler.py"] [] sampleState
      rfl rfl).2.2.1⟩

/-- C10 counterexample: an empty caller-supplied environment is *not*
treated like an absent one — at a concrete state the worker is spawned
with the empty environment verbatim, while the same state with an absent
(`None`) environment spawns with the computed default environment, so the
two spawns differ. -/
theorem empty_env_not_discarded :
    ((CoreManager.start_tribler_core "python" ["tribler.py"]
        [("PATH", "/bin")] { sampleState with core_env := some [] }).2.map
        Spawn.env = [[]])
    ∧ ((CoreManager.start_tribler_core "python" ["tribler.py"]
        [("PATH", "/bin")] { sampleState with core_env := none }).2.map
        Spawn.env ≠ [[]]) :=
  ⟨rfl, by decide⟩

/-- C10 (amended): only the argument-list half of the truthiness collapse
holds.  An empty caller-supplied argument list is a falsy Python list, so
`if not core_args` discards it exactly like an absent one and the spawn is
identical; a caller-supplied environment is a `QProcessEnvironment`
(passed unchanged to `setProcessEnvironment`), which PyQt5 leaves without
`__bool__`/`__len__` and which is therefore truthy even when empty, so
`if not core_env` keeps any supplied environment — the empty one
included — and the worker is spawned with it verbatim; only an absent
(`None`) environment is replaced by the computed defaults. -/
theorem start_tribler_core_empty_args_like_none (exe : String)
    (argv : List String) (senv : Env) (s : CoreManager) :
    ((CoreManager.start_tribler_core exe argv senv
        { s with core_args := some [] }).2
      = (CoreManager.start_tribler_core exe argv senv
        { s with core_args := none }).2)
    ∧ (∀ e : Env, (CoreManager.start_tribler_core exe argv senv
        { s with core_env := some e }).2.map Spawn.env = [e]) :=
  ⟨rfl, fun _ => rfl⟩

theorem runLaunch_no_spawn_before_upgrade (exe : String)
    (argv : List String) (senv : Env) :
    ∀ (tr : List LaunchEv) (s : CoreManager), s.upgrade_manager = true →
      LaunchEv.upgraderFinished ∉ tr →
      (runLaunch exe argv senv s tr).2 = [] := by
  intro tr
  induction tr with
  | nil => intro s _ _; rfl
  | cons e tr ih =>
    intro s hu hmem
    cases e with
    | initialError =>
      have hstep : stepLaunch exe argv senv s LaunchEv.initialError
          = ({ s with upgrader_finished_connected := true }, []) := by
        simp [stepLaunch, CoreManager.on_event_manager_initial_error, hu]
      simp only [runLaunch, hstep, List.nil_append]
      exact ih { s with upgrader_finished_connected := true } hu
        (fun hc => hmem (List.mem_cons_of_mem _ hc))
    | upgraderFinished =>
      exact absurd (List.mem_cons_self _ _) hmem

/-- C5: with an upgrade runner configured, no worker spawn occurs along any
sequence of launch-phase events that does not contain the runner's
completion signal, however long; with no upgrade runner configured, the
initial connection error spawns the worker in the same step. -/
theorem upgrade_gates_launch (exe : String) (argv : List String) (senv : Env)
    (s : CoreManager) (tr : List LaunchEv) :
    (s.upgrade_manager = true → LaunchEv.upgraderFinished ∉ tr →
      (runLaunch exe argv senv s tr).2 = [])
    ∧ (s.upgrade_manager = false →
      (stepLaunch exe argv senv s LaunchEv.initialError).2.length = 1) := by
  constructor
  · intro h1 h2
    exact runLaunch_no_spawn_before_upgrade exe argv senv tr s h1 h2
  · intro h
    simp [stepLaunch, CoreManager.on_event_manager_initial_error, h,
      CoreManager.start_tribler_core]

/-- Witness for C5: a concrete trace that delivers the initial connection
error (twice) but never the upgrade-completion signal spawns nothing when
an upgrade runner is configured, while without one the initial error
spawns immediately. -/
theorem upgrade_gates_launch_witness :
    ((runLaunch "python" ["tribler.py"] []
        { sampleState with upgrade_manager := true }
        [LaunchEv.initialError, LaunchEv.initialError]).2 = [])
    ∧ ((stepLaunch "python" ["tribler.py"] [] sampleState
        LaunchEv.initialError).2.length = 1) :=
  ⟨(upgrade_gates_launch "python" ["tribler.py"] []
      { sampleState with upgrade_manager := true }
      [LaunchEv.initialError, LaunchEv.initialError]).1 rfl (by decide),
   (upgrade_gates_launch "python" ["tribler.py"] [] sampleState []).2 rfl⟩
